import Mathlib

/-!
Shallow embedding of the KadeDB FFI bridge module
(`src/services/ffi/src/lib.rs`): the storage-handle lifecycle manager and
the blocking-to-async query execution bridge.

The native library (`KadeDB_CreateStorage`, `KadeDB_ExecuteQuery`,
`KadeDB_ResultSet_*`, `KadeDB_Destroy*`) is external C code; it is modelled
here as a deterministic fake contract (`NativeModel`, `ResultSetModel`,
`Cell`).  Every embedded operation returns its value together with the list
of native calls it performs (`NativeOp`), so that lifecycle and
thread-pool properties are statable.  Rust panics (`expect`) are modelled
as `CallResult.panic`; Rust `Drop` points are made explicit at the scope
ends where Rust runs them.
-/

namespace KadeDB

/-- `FfiError` (lib.rs lines 4-14).  The `Utf8` variant carries a
`std::str::Utf8Error` payload in Rust; the payload is irrelevant to any
property here and is omitted. -/
inductive FfiError where
  | CreateStorageFailed
  | ExecuteQueryFailed
  | Utf8
deriving DecidableEq, Repr

/-- Outcome of a Rust computation that may panic (`expect`).  `panic msg`
is the panic with the given `expect` message; it is not a return value. -/
inductive CallResult (α : Type) where
  | ok (a : α)
  | panic (msg : String)
deriving DecidableEq, Repr

/-- A native column value, as returned by `KadeDB_ResultSet_GetString`:
a null pointer, a non-null pointer to bytes that are not valid UTF-8, or
a valid string.  Part of the fake native contract. -/
inductive Cell where
  | null
  | invalid
  | str (s : String)
deriving DecidableEq, Repr

/-- Fake native result set: the column count reported by
`KadeDB_ResultSet_ColumnCount` (an `i32`, which may be zero or negative)
and the sequence of rows the cursor yields, each a list of native cells. -/
structure ResultSetModel where
  colCount : Int
  rows : List (List Cell)
deriving DecidableEq, Repr

/-- Native `KadeDB_ResultSet_GetString` of the fake contract: value of
column `c` in row `r`.  Out-of-range reads yield a null pointer. -/
def nativeGetString (m : ResultSetModel) (r : Nat) (c : Int) : Cell :=
  if c < 0 then Cell.null else (m.rows.getD r []).getD c.toNat Cell.null

/-- One native call, with the resource it touches.  Storage resources and
result-set resources are identified by numeric handles (their addresses). -/
inductive NativeOp where
  | createStorage
  | destroyStorage (h : Nat)
  | executeQuery (h : Nat) (q : String)
  | columnCount (r : Nat)
  | nextRow (r : Nat)
  | getString (r : Nat) (c : Int)
  | destroyResult (r : Nat)
deriving DecidableEq, Repr

/-- Which thread pool a native call runs on: the cooperative scheduler
pool, or the blocking-capable worker pool (`tokio::task::spawn_blocking`). -/
inductive Pool where
  | scheduler
  | blocking
deriving DecidableEq, Repr

/-- Fake native contract for one session: `create` is the resource
returned by `KadeDB_CreateStorage` (`none` = null pointer), and `exec q`
is the result of `KadeDB_ExecuteQuery` for query text `q` (`none` = null
pointer, otherwise the fresh result-set handle and its cursor contents). -/
structure NativeModel where
  create : Option Nat
  exec : String → Option (Nat × ResultSetModel)

/-- `Storage` (lib.rs lines 53-55): wraps the non-null native storage
resource (`NonNull<KadeDB_Storage>`), here its numeric handle. -/
structure Storage where
  raw : Nat
deriving DecidableEq, Repr

/-- `StorageRaw` (lib.rs lines 16-17): the Thread-Crossing Token, a plain
numeric copy of the storage resource address used to move the reference
into the blocking worker. -/
structure StorageRaw where
  addr : Nat
deriving DecidableEq, Repr

/-- `ResultSet` (lib.rs lines 104-106): wraps the non-null native result
resource.  `pos` is the number of successful `next_row` calls so far, so
the current row (after at least one successful `next_row`) is row
`pos - 1` of the fake cursor. -/
structure ResultSet where
  rid : Nat
  model : ResultSetModel
  pos : Nat
deriving DecidableEq, Repr

/-- `CString::new` fails exactly when the string contains an interior NUL
byte (the native transport's terminator). -/
def containsNul (q : String) : Bool :=
  q.data.contains (Char.ofNat 0)

/-- `ResultSet::column_count` (lib.rs lines 109-111). -/
def ResultSet.column_count (rs : ResultSet) : Int × List NativeOp :=
  (rs.model.colCount, [NativeOp.columnCount rs.rid])

/-- `ResultSet::next_row` (lib.rs lines 113-115): advances the native
cursor; returns whether a row is available.  After exhaustion it keeps
returning `false`. -/
def ResultSet.next_row (rs : ResultSet) : (Bool × ResultSet) × List NativeOp :=
  if rs.pos < rs.model.rows.length then
    ((true, { rs with pos := rs.pos + 1 }), [NativeOp.nextRow rs.rid])
  else
    ((false, rs), [NativeOp.nextRow rs.rid])

/-- The pointer-to-string part of `ResultSet::get_string`: a null pointer
or invalid UTF-8 bytes give `none`; otherwise the decoded string. -/
def cellToString : Cell → Option String
  | Cell.null => none
  | Cell.invalid => none
  | Cell.str s => some s

/-- `ResultSet::get_string` (lib.rs lines 117-123): reads column `c` of
the current row; `none` if the native pointer is null or the bytes are
not valid UTF-8. -/
def ResultSet.get_string (rs : ResultSet) (c : Int) : Option String × List NativeOp :=
  (cellToString (nativeGetString rs.model (rs.pos - 1) c),
   [NativeOp.getString rs.rid c])

/-- The `for i in 0..cols` body of `all_rows_as_strings` building one row:
`row.push(self.get_string(i).unwrap_or_default())`. -/
def rowStrings (rs : ResultSet) (cols : Nat) : List String × List NativeOp :=
  ((List.range cols).map fun i => ((rs.get_string (Int.ofNat i)).fst).getD "",
   (List.range cols).map fun i => NativeOp.getString rs.rid (Int.ofNat i))

/-- The `while self.next_row() { ... }` loop of `all_rows_as_strings`,
with a structural fuel argument.  The fuel supplied by `drainLoop` always
exceeds the number of remaining cursor rows, so the `0` branch is never
reached there (each successful `next_row` strictly decreases the count of
remaining rows). -/
def drainLoopAux : Nat → ResultSet → Nat → List (List String) × List NativeOp
  | 0, _, _ => ([], [])
  | fuel + 1, rs, cols =>
    match rs.next_row with
    | ((true, rs'), t1) =>
        ((rowStrings rs' cols).fst :: (drainLoopAux fuel rs' cols).fst,
         t1 ++ (rowStrings rs' cols).snd ++ (drainLoopAux fuel rs' cols).snd)
    | ((false, _), t1) => ([], t1)

/-- The drain loop at adequate fuel: one more than the rows left. -/
def drainLoop (rs : ResultSet) (cols : Nat) : List (List String) × List NativeOp :=
  drainLoopAux (rs.model.rows.length - rs.pos + 1) rs cols

/-- `ResultSet::all_rows_as_strings` (lib.rs lines 125-140): read the
column count; a negative count yields `Ok(vec![])`; otherwise drain every
row, rendering each missing column value as the empty string. -/
def ResultSet.all_rows_as_strings (rs : ResultSet) :
    Except FfiError (List (List String)) × List NativeOp :=
  let (cols, t0) := rs.column_count
  if cols < 0 then (Except.ok [], t0)
  else
    let (out, t1) := drainLoop rs cols.toNat
    (Except.ok out, t0 ++ t1)

/-- `Storage::new` (lib.rs lines 61-65): call `KadeDB_CreateStorage`; a
null resource fails with `CreateStorageFailed`, otherwise the handle
wraps the non-null resource. -/
def Storage.new (n : NativeModel) : Except FfiError Storage × List NativeOp :=
  match n.create with
  | none => (Except.error FfiError.CreateStorageFailed, [NativeOp.createStorage])
  | some h => (Except.ok ⟨h⟩, [NativeOp.createStorage])

/-- `Storage::execute_query` (lib.rs lines 67-72): `CString::new(query)`
panics (`expect`) on an interior NUL before any native call; otherwise
`KadeDB_ExecuteQuery` runs, a null result fails with
`ExecuteQueryFailed`, and a non-null result becomes a fresh cursor. -/
def Storage.execute_query (st : Storage) (n : NativeModel) (q : String) :
    CallResult (Except FfiError ResultSet) × List NativeOp :=
  if containsNul q then (CallResult.panic "query contains NUL", [])
  else
    match n.exec q with
    | none =>
        (CallResult.ok (Except.error FfiError.ExecuteQueryFailed),
         [NativeOp.executeQuery st.raw q])
    | some (rid, m) =>
        (CallResult.ok (Except.ok ⟨rid, m, 0⟩),
         [NativeOp.executeQuery st.raw q])

/-- The closure passed to `tokio::task::spawn_blocking` inside
`Storage::execute_query_rows_as_strings` (lib.rs lines 89-94): build the
C string (panicking on NUL), run `KadeDB_ExecuteQuery` through the
Thread-Crossing Token, fail with `ExecuteQueryFailed` on a null result,
otherwise drain the cursor; the `ResultSet` is dropped at the end of the
closure, which runs `KadeDB_DestroyResultSet`. -/
def workerBody (storage : StorageRaw) (n : NativeModel) (q : String) :
    CallResult (Except FfiError (List (List String))) × List NativeOp :=
  if containsNul q then (CallResult.panic "query contains NUL", [])
  else
    match n.exec q with
    | none =>
        (CallResult.ok (Except.error FfiError.ExecuteQueryFailed),
         [NativeOp.executeQuery storage.addr q])
    | some (rid, m) =>
        let rs : ResultSet := ⟨rid, m, 0⟩
        (CallResult.ok rs.all_rows_as_strings.fst,
         NativeOp.executeQuery storage.addr q
           :: (rs.all_rows_as_strings.snd ++ [NativeOp.destroyResult rid]))

/-- Result of awaiting a tokio `JoinHandle`: the worker completed with a
value, or the join failed (the worker panicked, or the task was
cancelled/aborted externally). -/
inductive JoinResult (α : Type) where
  | completed (a : α)
  | joinError
deriving DecidableEq, Repr

/-- `spawn_blocking(body).await`: the body runs on the blocking pool (its
native calls are labelled `Pool.blocking`); a panic inside the body is
caught by the runtime and surfaces as a `JoinError`, as does external
cancellation (`cancelled = true`). -/
def spawnBlockingAwait {α : Type} (cancelled : Bool)
    (body : CallResult α × List NativeOp) :
    JoinResult α × List (Pool × NativeOp) :=
  ((if cancelled then JoinResult.joinError
    else
      match body.fst with
      | CallResult.ok a => JoinResult.completed a
      | CallResult.panic _ => JoinResult.joinError),
   body.snd.map fun op => (Pool.blocking, op))

/-- `Storage::execute_query_rows_as_strings` (lib.rs lines 74-95): copy
the storage address into the Thread-Crossing Token, dispatch `workerBody`
to the blocking pool, await the join, and `.expect("spawn_blocking")` the
join result — a join failure therefore panics with that message.
`cancelled` models abnormal external termination of the join. -/
def Storage.execute_query_rows_as_strings (st : Storage) (n : NativeModel)
    (q : String) (cancelled : Bool) :
    CallResult (Except FfiError (List (List String))) × List (Pool × NativeOp) :=
  let storage : StorageRaw := ⟨st.raw⟩
  let j := spawnBlockingAwait cancelled (workerBody storage n q)
  match j.fst with
  | JoinResult.completed r => (CallResult.ok r, j.snd)
  | JoinResult.joinError => (CallResult.panic "spawn_blocking", j.snd)

/-- The synchronous materialization path: `execute_query` followed by
`all_rows_as_strings` on the returned cursor, the cursor being dropped at
the end of the scope (`Drop for ResultSet`, lib.rs lines 143-147). -/
def Storage.execute_query_then_drain (st : Storage) (n : NativeModel) (q : String) :
    CallResult (Except FfiError (List (List String))) × List NativeOp :=
  match st.execute_query n q with
  | (CallResult.panic msg, t) => (CallResult.panic msg, t)
  | (CallResult.ok (Except.error e), t) => (CallResult.ok (Except.error e), t)
  | (CallResult.ok (Except.ok rs), t) =>
      (CallResult.ok rs.all_rows_as_strings.fst,
       t ++ rs.all_rows_as_strings.snd ++ [NativeOp.destroyResult rs.rid])

/-- One caller session following the spec's data flow (§2): create the
Storage Handle, run one bridged query, and drop the handle at the end of
the scope (`Drop for Storage`, lib.rs lines 97-101; Rust also runs this
drop while unwinding from a panic).  Native calls made directly by the
caller run on the scheduler side. -/
def session (n : NativeModel) (q : String) (cancelled : Bool) :
    CallResult (Except FfiError (List (List String))) × List (Pool × NativeOp) :=
  match Storage.new n with
  | (Except.error e, t) =>
      (CallResult.ok (Except.error e), t.map fun op => (Pool.scheduler, op))
  | (Except.ok st, t) =>
      let r := st.execute_query_rows_as_strings n q cancelled
      (r.fst,
       (t.map fun op => (Pool.scheduler, op)) ++ r.snd
         ++ [(Pool.scheduler, NativeOp.destroyStorage st.raw)])

/-- The bare native-op sequence of a session, pool labels erased. -/
def sessionOps (n : NativeModel) (q : String) (cancelled : Bool) : List NativeOp :=
  (session n q cancelled).snd.map Prod.snd

/-- Does this native call touch result-set resource `r`? -/
def usesResult (r : Nat) : NativeOp → Bool
  | NativeOp.columnCount r2 => r2 == r
  | NativeOp.nextRow r2 => r2 == r
  | NativeOp.getString r2 _ => r2 == r
  | NativeOp.destroyResult r2 => r2 == r
  | _ => false

/-- A concrete fake native contract used to evaluate theorems on a live
input: storage resource 5; every query yields result set 9 holding one
single-column row `"x"`. -/
def nLive : NativeModel :=
  { create := some 5, exec := fun _ => some (9, ResultSetModel.mk 1 [[Cell.str "x"]]) }

/-! ### Characterization of the drain loop -/

/-- The row of strings the drain loop produces for cursor row `r`. -/
def mkRow (m : ResultSetModel) (cols : Nat) (r : Nat) : List String :=
  (List.range cols).map fun i => (cellToString (nativeGetString m r (Int.ofNat i))).getD ""

lemma mkRow_length (m : ResultSetModel) (cols r : Nat) : (mkRow m cols r).length = cols := by
  simp [mkRow]

lemma mkRow_getD (m : ResultSetModel) (cols r j : Nat) (hj : j < cols) :
    (mkRow m cols r).getD j ""
      = (cellToString (nativeGetString m r (Int.ofNat j))).getD "" := by
  simp [mkRow, List.getD_eq_getElem?_getD, List.getElem?_map, List.getElem?_range, hj]

lemma rowStrings_fst (rid : Nat) (m : ResultSetModel) (pos cols : Nat) :
    (rowStrings ⟨rid, m, pos + 1⟩ cols).fst = mkRow m cols pos := by
  simp [rowStrings, ResultSet.get_string, mkRow]

lemma drainLoopAux_fst (m : ResultSetModel) (rid cols : Nat) :
    ∀ fuel pos, m.rows.length - pos < fuel →
      (drainLoopAux fuel ⟨rid, m, pos⟩ cols).fst
        = (List.range (m.rows.length - pos)).map fun k => mkRow m cols (pos + k) := by
  intro fuel
  induction fuel with
  | zero => intro pos h; omega
  | succ f ih =>
    intro pos h
    by_cases hp : pos < m.rows.length
    · have hstep : (ResultSet.mk rid m pos).next_row
          = ((true, ⟨rid, m, pos + 1⟩), [NativeOp.nextRow rid]) := by
        simp [ResultSet.next_row, hp]
      have hlen : m.rows.length - pos = (m.rows.length - (pos + 1)) + 1 := by omega
      rw [drainLoopAux, hstep]
      simp only
      rw [rowStrings_fst, ih (pos + 1) (by omega), hlen, List.range_succ_eq_map]
      simp only [List.map_cons, List.map_map, Nat.add_zero]
      refine congrArg (mkRow m cols pos :: ·) ?_
      refine List.map_congr_left fun k _ => ?_
      simp only [Function.comp]
      exact congrArg (mkRow m cols) (by omega)
    · have hstep : (ResultSet.mk rid m pos).next_row
          = ((false, ⟨rid, m, pos⟩), [NativeOp.nextRow rid]) := by
        simp [ResultSet.next_row, hp]
      have hlen : m.rows.length - pos = 0 := by omega
      rw [drainLoopAux, hstep]
      simp [hlen]

lemma drainLoopAux_snd_mem (m : ResultSetModel) (rid cols : Nat) :
    ∀ fuel pos op, op ∈ (drainLoopAux fuel ⟨rid, m, pos⟩ cols).snd →
      op = NativeOp.nextRow rid ∨ ∃ c, op = NativeOp.getString rid c := by
  intro fuel
  induction fuel with
  | zero => intro pos op hop; simp [drainLoopAux] at hop
  | succ f ih =>
    intro pos op hop
    by_cases hp : pos < m.rows.length
    · have hstep : (ResultSet.mk rid m pos).next_row
          = ((true, ⟨rid, m, pos + 1⟩), [NativeOp.nextRow rid]) := by
        simp [ResultSet.next_row, hp]
      rw [drainLoopAux, hstep] at hop
      simp only [rowStrings, List.mem_append, List.mem_cons, List.mem_map,
        List.mem_range, List.not_mem_nil, or_false] at hop
      rcases hop with (h1 | ⟨i, _, h2⟩) | h3
      · exact Or.inl h1
      · exact Or.inr ⟨Int.ofNat i, h2.symm⟩
      · exact ih (pos + 1) op h3
    · have hstep : (ResultSet.mk rid m pos).next_row
          = ((false, ⟨rid, m, pos⟩), [NativeOp.nextRow rid]) := by
        simp [ResultSet.next_row, hp]
      rw [drainLoopAux, hstep] at hop
      simp at hop
      exact Or.inl hop

lemma drainLoop_fst (m : ResultSetModel) (rid cols : Nat) :
    (drainLoop ⟨rid, m, 0⟩ cols).fst
      = (List.range m.rows.length).map fun k => mkRow m cols k := by
  have h := drainLoopAux_fst m rid cols (m.rows.length - 0 + 1) 0 (by omega)
  simpa [drainLoop] using h

lemma drainLoop_snd_mem (m : ResultSetModel) (rid cols : Nat) (op : NativeOp)
    (hop : op ∈ (drainLoop ⟨rid, m, 0⟩ cols).snd) :
    op = NativeOp.nextRow rid ∨ ∃ c, op = NativeOp.getString rid c :=
  drainLoopAux_snd_mem m rid cols _ 0 op hop

lemma all_rows_fst_nonneg (rid : Nat) (m : ResultSetModel) (h : 0 ≤ m.colCount) :
    ((ResultSet.mk rid m 0).all_rows_as_strings).fst
      = Except.ok ((List.range m.rows.length).map fun k => mkRow m m.colCount.toNat k) := by
  simp [ResultSet.all_rows_as_strings, ResultSet.column_count, not_lt.mpr h, drainLoop_fst]

lemma all_rows_fst_ok (rs : ResultSet) :
    ∃ out, rs.all_rows_as_strings.fst = Except.ok out := by
  unfold ResultSet.all_rows_as_strings ResultSet.column_count
  by_cases h : rs.model.colCount < 0 <;> simp [h]

lemma all_rows_snd (rs : ResultSet) :
    rs.all_rows_as_strings.snd
      = NativeOp.columnCount rs.rid
          :: (if rs.model.colCount < 0 then []
              else (drainLoop rs rs.model.colCount.toNat).snd) := by
  unfold ResultSet.all_rows_as_strings ResultSet.column_count
  by_cases h : rs.model.colCount < 0 <;> simp [h]

/-! ### Shape of the worker, bridge and session traces -/

lemma workerBody_fst_nul (s : StorageRaw) (n : NativeModel) (q : String)
    (hq : containsNul q = true) :
    (workerBody s n q).fst = CallResult.panic "query contains NUL" := by
  simp [workerBody, hq]

lemma workerBody_fst_execNone (s : StorageRaw) (n : NativeModel) (q : String)
    (hq : containsNul q = false) (he : n.exec q = none) :
    (workerBody s n q).fst = CallResult.ok (Except.error FfiError.ExecuteQueryFailed) := by
  simp [workerBody, hq, he]

lemma workerBody_fst_execSome (s : StorageRaw) (n : NativeModel) (q : String)
    (rid : Nat) (m : ResultSetModel) (hq : containsNul q = false)
    (he : n.exec q = some (rid, m)) :
    (workerBody s n q).fst
      = CallResult.ok ((ResultSet.mk rid m 0).all_rows_as_strings).fst := by
  simp [workerBody, hq, he]

lemma workerBody_snd_nul (s : StorageRaw) (n : NativeModel) (q : String)
    (hq : containsNul q = true) : (workerBody s n q).snd = [] := by
  simp [workerBody, hq]

lemma workerBody_snd_execNone (s : StorageRaw) (n : NativeModel) (q : String)
    (hq : containsNul q = false) (he : n.exec q = none) :
    (workerBody s n q).snd = [NativeOp.executeQuery s.addr q] := by
  simp [workerBody, hq, he]

lemma workerBody_snd_execSome (s : StorageRaw) (n : NativeModel) (q : String)
    (rid : Nat) (m : ResultSetModel) (hq : containsNul q = false)
    (he : n.exec q = some (rid, m)) :
    (workerBody s n q).snd
      = NativeOp.executeQuery s.addr q
          :: (((ResultSet.mk rid m 0).all_rows_as_strings).snd
              ++ [NativeOp.destroyResult rid]) := by
  simp [workerBody, hq, he]

/-- Every native call the worker makes is the execute call or an operation
on the result set it created (cursor reads and the destroy of that set). -/
lemma workerBody_snd_mem (s : StorageRaw) (n : NativeModel) (q : String) (op : NativeOp)
    (hop : op ∈ (workerBody s n q).snd) :
    op = NativeOp.executeQuery s.addr q
    ∨ ∃ rid m, n.exec q = some (rid, m)
        ∧ (op = NativeOp.columnCount rid ∨ op = NativeOp.nextRow rid
           ∨ (∃ c, op = NativeOp.getString rid c) ∨ op = NativeOp.destroyResult rid) := by
  by_cases hq : containsNul q
  · simp [workerBody_snd_nul s n q hq] at hop
  · have hq' : containsNul q = false := by simpa using hq
    cases he : n.exec q with
    | none =>
      rw [workerBody_snd_execNone s n q hq' he] at hop
      simp at hop
      exact Or.inl hop
    | some p =>
      obtain ⟨rid, m⟩ := p
      rw [workerBody_snd_execSome s n q rid m hq' he, all_rows_snd] at hop
      simp only [List.cons_append, List.mem_cons, List.mem_append] at hop
      rcases hop with h | h | hop
      · exact Or.inl h
      · exact Or.inr ⟨rid, m, rfl, Or.inl h⟩
      rcases hop with h | h
      · by_cases hneg : m.colCount < 0
        · simp [hneg] at h
        · simp only [hneg, if_false] at h
          rcases drainLoop_snd_mem m rid _ op h with h2 | ⟨c2, h2⟩
          · exact Or.inr ⟨rid, m, rfl, Or.inr (Or.inl h2)⟩
          · exact Or.inr ⟨rid, m, rfl, Or.inr (Or.inr (Or.inl ⟨c2, h2⟩))⟩
      · simp at h
        exact Or.inr ⟨rid, m, rfl, Or.inr (Or.inr (Or.inr h))⟩

lemma workerBody_no_destroyStorage (s : StorageRaw) (n : NativeModel) (q : String)
    (op : NativeOp) (hop : op ∈ (workerBody s n q).snd) (h2 : Nat) :
    op ≠ NativeOp.destroyStorage h2 := by
  rcases workerBody_snd_mem s n q op hop with h | ⟨rid, m, _, h⟩
  · subst h; simp
  · rcases h with h | h | ⟨c, h⟩ | h <;> subst h <;> simp

lemma drainLoop_countP_destroyResult (m : ResultSetModel) (rid cols r : Nat) :
    (drainLoop ⟨rid, m, 0⟩ cols).snd.countP
      (fun op => decide (op = NativeOp.destroyResult r)) = 0 := by
  refine List.countP_eq_zero.mpr fun op hop => ?_
  rcases drainLoop_snd_mem m rid cols op hop with h | ⟨c, h⟩ <;> subst h <;> simp

lemma workerBody_countP_destroyResult (s : StorageRaw) (n : NativeModel) (q : String)
    (rid : Nat) (m : ResultSetModel) (hq : containsNul q = false)
    (he : n.exec q = some (rid, m)) :
    (workerBody s n q).snd.countP
      (fun op => decide (op = NativeOp.destroyResult rid)) = 1 := by
  rw [workerBody_snd_execSome s n q rid m hq he, all_rows_snd]
  by_cases hneg : m.colCount < 0 <;>
    simp [hneg, List.countP_cons, List.countP_append, drainLoop_countP_destroyResult]

/-- The bridge's trace is exactly the worker's trace, run on the blocking
pool; the scheduler side makes no native call of its own. -/
lemma async_snd (st : Storage) (n : NativeModel) (q : String) (c : Bool) :
    (st.execute_query_rows_as_strings n q c).snd
      = (workerBody ⟨st.raw⟩ n q).snd.map fun op => (Pool.blocking, op) := by
  simp only [Storage.execute_query_rows_as_strings]
  split <;> simp [spawnBlockingAwait]

lemma async_fst_of_ok (st : Storage) (n : NativeModel) (q : String)
    (r : Except FfiError (List (List String)))
    (hw : (workerBody ⟨st.raw⟩ n q).fst = CallResult.ok r) :
    (st.execute_query_rows_as_strings n q false).fst = CallResult.ok r := by
  simp [Storage.execute_query_rows_as_strings, spawnBlockingAwait, hw]

lemma async_fst_of_panic (st : Storage) (n : NativeModel) (q : String) (msg : String)
    (hw : (workerBody ⟨st.raw⟩ n q).fst = CallResult.panic msg) :
    (st.execute_query_rows_as_strings n q false).fst
      = CallResult.panic "spawn_blocking" := by
  simp [Storage.execute_query_rows_as_strings, spawnBlockingAwait, hw]

lemma async_fst_cancelled (st : Storage) (n : NativeModel) (q : String) :
    (st.execute_query_rows_as_strings n q true).fst
      = CallResult.panic "spawn_blocking" := by
  simp [Storage.execute_query_rows_as_strings, spawnBlockingAwait]

lemma session_snd_some (n : NativeModel) (q : String) (c : Bool) (h : Nat)
    (hc : n.create = some h) :
    (session n q c).snd
      = (Pool.scheduler, NativeOp.createStorage)
          :: (((workerBody ⟨h⟩ n q).snd.map fun op => (Pool.blocking, op))
              ++ [(Pool.scheduler, NativeOp.destroyStorage h)]) := by
  simp [session, Storage.new, hc, async_snd]

lemma session_snd_none (n : NativeModel) (q : String) (c : Bool)
    (hc : n.create = none) :
    (session n q c).snd = [(Pool.scheduler, NativeOp.createStorage)] := by
  simp [session, Storage.new, hc]

lemma then_drain_nul (st : Storage) (n : NativeModel) (q : String)
    (hq : containsNul q = true) :
    st.execute_query_then_drain n q = (CallResult.panic "query contains NUL", []) := by
  simp [Storage.execute_query_then_drain, Storage.execute_query, hq]

lemma then_drain_execNone (st : Storage) (n : NativeModel) (q : String)
    (hq : containsNul q = false) (he : n.exec q = none) :
    st.execute_query_then_drain n q
      = (CallResult.ok (Except.error FfiError.ExecuteQueryFailed),
         [NativeOp.executeQuery st.raw q]) := by
  simp [Storage.execute_query_then_drain, Storage.execute_query, hq, he]

lemma then_drain_execSome (st : Storage) (n : NativeModel) (q : String)
    (rid : Nat) (m : ResultSetModel) (hq : containsNul q = false)
    (he : n.exec q = some (rid, m)) :
    st.execute_query_then_drain n q
      = (CallResult.ok ((ResultSet.mk rid m 0).all_rows_as_strings).fst,
         NativeOp.executeQuery st.raw q
           :: (((ResultSet.mk rid m 0).all_rows_as_strings).snd
               ++ [NativeOp.destroyResult rid])) := by
  simp [Storage.execute_query_then_drain, Storage.execute_query, hq, he]

lemma workerBody_fst_spec (s : StorageRaw) (n : NativeModel) (q : String) :
    (workerBody s n q).fst = CallResult.panic "query contains NUL"
    ∨ (workerBody s n q).fst = CallResult.ok (Except.error FfiError.ExecuteQueryFailed)
    ∨ ∃ out, (workerBody s n q).fst = CallResult.ok (Except.ok out) := by
  by_cases hq : containsNul q
  · exact Or.inl (workerBody_fst_nul s n q hq)
  · have hq' : containsNul q = false := by simpa using hq
    cases he : n.exec q with
    | none => exact Or.inr (Or.inl (workerBody_fst_execNone s n q hq' he))
    | some p =>
      obtain ⟨rid, m⟩ := p
      obtain ⟨out, ho⟩ := all_rows_fst_ok (ResultSet.mk rid m 0)
      refine Or.inr (Or.inr ⟨out, ?_⟩)
      rw [workerBody_fst_execSome s n q rid m hq' he, ho]

lemma async_fst_spec (st : Storage) (n : NativeModel) (q : String) (c : Bool) :
    (st.execute_query_rows_as_strings n q c).fst = CallResult.panic "spawn_blocking"
    ∨ ∃ r, (st.execute_query_rows_as_strings n q c).fst = CallResult.ok r
        ∧ (workerBody ⟨st.raw⟩ n q).fst = CallResult.ok r := by
  cases c with
  | false =>
    cases hw : (workerBody ⟨st.raw⟩ n q).fst with
    | ok r => exact Or.inr ⟨r, async_fst_of_ok st n q r hw, rfl⟩
    | panic msg => exact Or.inl (async_fst_of_panic st n q msg hw)
  | true => exact Or.inl (async_fst_cancelled st n q)

lemma sessionOps_some (n : NativeModel) (q : String) (c : Bool) (h : Nat)
    (hc : n.create = some h) :
    sessionOps n q c
      = NativeOp.createStorage
          :: ((workerBody ⟨h⟩ n q).snd ++ [NativeOp.destroyStorage h]) := by
  simp [sessionOps, session_snd_some n q c h hc, List.map_map, Function.comp]

lemma workerBody_countP_destroyStorage (s : StorageRaw) (n : NativeModel) (q : String)
    (h2 : Nat) :
    (workerBody s n q).snd.countP
      (fun op => decide (op = NativeOp.destroyStorage h2)) = 0 := by
  refine List.countP_eq_zero.mpr fun op hop => ?_
  simpa using workerBody_no_destroyStorage s n q op hop h2

/-! ### Claim theorems -/

/-- C1: for every result set of `N` rows and `M ≥ 0` columns,
`all_rows_as_strings` (the spec's `drain_all`) succeeds with exactly `N`
row entries in cursor order, each of length exactly `M`; a column whose
native value is a null pointer or invalid UTF-8 is read as absent by
`get_string` (an absent value, never an error) and rendered as the empty
string. -/
theorem drain_all_shape (rid : Nat) (m : ResultSetModel) (hM : 0 ≤ m.colCount) :
    ∃ out,
      ((ResultSet.mk rid m 0).all_rows_as_strings).fst = Except.ok out
      ∧ out.length = m.rows.length
      ∧ (∀ row ∈ out, row.length = m.colCount.toNat)
      ∧ (∀ i j, i < m.rows.length → j < m.colCount.toNat →
          (out.getD i []).getD j ""
            = (cellToString (nativeGetString m i (Int.ofNat j))).getD "")
      ∧ (∀ i j, i < m.rows.length → j < m.colCount.toNat →
          (nativeGetString m i (Int.ofNat j) = Cell.null
            ∨ nativeGetString m i (Int.ofNat j) = Cell.invalid) →
          (out.getD i []).getD j "" = "")
      ∧ (∀ (rs : ResultSet) (ci : Int),
          (nativeGetString rs.model (rs.pos - 1) ci = Cell.null
            ∨ nativeGetString rs.model (rs.pos - 1) ci = Cell.invalid) →
          (rs.get_string ci).fst = none) := by
  have hget : ∀ i, i < m.rows.length →
      (((List.range m.rows.length).map fun k => mkRow m m.colCount.toNat k).getD i [])
        = mkRow m m.colCount.toNat i := by
    intro i hi
    simp [List.getD_eq_getElem?_getD, List.getElem?_map, List.getElem?_range, hi]
  refine ⟨(List.range m.rows.length).map fun k => mkRow m m.colCount.toNat k,
    all_rows_fst_nonneg rid m hM, by simp, ?_, ?_, ?_, ?_⟩
  · intro row hrow
    simp only [List.mem_map, List.mem_range] at hrow
    obtain ⟨k, _, hk⟩ := hrow
    rw [← hk, mkRow_length]
  · intro i j hi hj
    rw [hget i hi, mkRow_getD m _ i j hj]
  · intro i j hi hj hcell
    rw [hget i hi, mkRow_getD m _ i j hj]
    rcases hcell with h | h <;> rw [h] <;> rfl
  · intro rs ci h
    rcases h with h | h <;> simp [ResultSet.get_string, h, cellToString]

/-- C1 witness: the hypothesis and conclusion at the spec's concrete
scenario B (two columns; rows `["a","b"]` and `["c", null]`). -/
theorem drain_all_shape_witness :
    0 ≤ (ResultSetModel.mk 2 [[Cell.str "a", Cell.str "b"],
          [Cell.str "c", Cell.null]]).colCount
    ∧ ∃ out,
      ((ResultSet.mk 0 (ResultSetModel.mk 2 [[Cell.str "a", Cell.str "b"],
            [Cell.str "c", Cell.null]]) 0).all_rows_as_strings).fst = Except.ok out
      ∧ out.length = (ResultSetModel.mk 2 [[Cell.str "a", Cell.str "b"],
            [Cell.str "c", Cell.null]]).rows.length
      ∧ (∀ row ∈ out, row.length = (ResultSetModel.mk 2 [[Cell.str "a", Cell.str "b"],
            [Cell.str "c", Cell.null]]).colCount.toNat)
      ∧ (∀ i j, i < (ResultSetModel.mk 2 [[Cell.str "a", Cell.str "b"],
            [Cell.str "c", Cell.null]]).rows.length
          → j < (ResultSetModel.mk 2 [[Cell.str "a", Cell.str "b"],
            [Cell.str "c", Cell.null]]).colCount.toNat →
          (out.getD i []).getD j ""
            = (cellToString (nativeGetString (ResultSetModel.mk 2
                [[Cell.str "a", Cell.str "b"], [Cell.str "c", Cell.null]])
                i (Int.ofNat j))).getD "")
      ∧ (∀ i j, i < (ResultSetModel.mk 2 [[Cell.str "a", Cell.str "b"],
            [Cell.str "c", Cell.null]]).rows.length
          → j < (ResultSetModel.mk 2 [[Cell.str "a", Cell.str "b"],
            [Cell.str "c", Cell.null]]).colCount.toNat →
          (nativeGetString (ResultSetModel.mk 2 [[Cell.str "a", Cell.str "b"],
              [Cell.str "c", Cell.null]]) i (Int.ofNat j) = Cell.null
            ∨ nativeGetString (ResultSetModel.mk 2 [[Cell.str "a", Cell.str "b"],
              [Cell.str "c", Cell.null]]) i (Int.ofNat j) = Cell.invalid) →
          (out.getD i []).getD j "" = "")
      ∧ (∀ (rs : ResultSet) (ci : Int),
          (nativeGetString rs.model (rs.pos - 1) ci = Cell.null
            ∨ nativeGetString rs.model (rs.pos - 1) ci = Cell.invalid) →
          (rs.get_string ci).fst = none) :=
  ⟨by decide,
   drain_all_shape 0 (ResultSetModel.mk 2 [[Cell.str "a", Cell.str "b"],
     [Cell.str "c", Cell.null]]) (by decide)⟩

/-- C4 counterexample: a non-null result set reporting `column_count = 0`
whose native cursor yields one row makes `all_rows_as_strings` return
`[[]]` — one (empty) row entry — which is not the empty row list the
claim demands. -/
theorem zero_columns_counterexample :
    ((ResultSet.mk 0 (ResultSetModel.mk 0 [[]]) 0).all_rows_as_strings).fst
        = Except.ok [([] : List String)]
    ∧ (Except.ok [([] : List String)]
        ≠ (Except.ok [] : Except FfiError (List (List String)))) := by
  exact ⟨rfl, by simp⟩

/-- C4 amended: a *negative* column count yields the empty row list
without error regardless of how many rows the native cursor would yield;
a *zero* column count yields, without error, one empty row entry per
cursor row (hence the empty row list exactly when the cursor yields no
rows). -/
theorem nonpositive_columns_drain (rid : Nat) (m : ResultSetModel) :
    (m.colCount < 0 →
      (ResultSet.mk rid m 0).all_rows_as_strings
        = (Except.ok [], [NativeOp.columnCount rid]))
    ∧ (m.colCount = 0 →
      ((ResultSet.mk rid m 0).all_rows_as_strings).fst
        = Except.ok (m.rows.map fun _ => ([] : List String))) := by
  constructor
  · intro hneg
    simp [ResultSet.all_rows_as_strings, ResultSet.column_count, hneg]
  · intro hz
    rw [all_rows_fst_nonneg rid m (by omega)]
    have hcols : m.colCount.toNat = 0 := by omega
    simp [hcols, mkRow, List.map_const']

/-- C4 witness (for the amended claim): a zero-column result whose cursor
yields two rows drains to two empty row entries. -/
theorem nonpositive_columns_drain_witness :
    (ResultSetModel.mk 0 [[], []]).colCount = 0
    ∧ ((ResultSet.mk 0 (ResultSetModel.mk 0 [[], []]) 0).all_rows_as_strings).fst
        = Except.ok ((ResultSetModel.mk 0 [[], []]).rows.map fun _ => ([] : List String)) :=
  ⟨rfl, (nonpositive_columns_drain 0 (ResultSetModel.mk 0 [[], []])).2 rfl⟩

/-- C10: `all_rows_as_strings` is infallible — it returns `Ok` for every
cursor state — and no public operation of the module ever returns the
`Utf8` error kind: any error from `Storage::new` is `CreateStorageFailed`
and any error returned by the sync or async query paths is
`ExecuteQueryFailed` (invalid UTF-8 is absorbed as an absent value inside
`get_string`). -/
theorem drain_infallible_no_utf8_error :
    (∀ rs : ResultSet, ∃ out, rs.all_rows_as_strings.fst = Except.ok out)
    ∧ (∀ n e, (Storage.new n).fst = Except.error e → e = FfiError.CreateStorageFailed)
    ∧ (∀ (st : Storage) n q e,
        (st.execute_query n q).fst = CallResult.ok (Except.error e) →
        e = FfiError.ExecuteQueryFailed)
    ∧ (∀ (st : Storage) n q c e,
        (st.execute_query_rows_as_strings n q c).fst = CallResult.ok (Except.error e) →
        e = FfiError.ExecuteQueryFailed) := by
  refine ⟨all_rows_fst_ok, ?_, ?_, ?_⟩
  · intro n e he
    cases hc : n.create with
    | none =>
      simp only [Storage.new, hc] at he
      exact (Except.error.inj he).symm
    | some h => simp [Storage.new, hc] at he
  · intro st n q e he
    by_cases hq : containsNul q
    · simp [Storage.execute_query, hq] at he
    · have hq' : containsNul q = false := by simpa using hq
      cases hx : n.exec q with
      | none =>
        simp only [Storage.execute_query, hq', hx, Bool.false_eq_true, if_false] at he
        exact (Except.error.inj (CallResult.ok.inj he)).symm
      | some p => simp [Storage.execute_query, hq', hx] at he
  · intro st n q c e he
    rcases async_fst_spec st n q c with h | ⟨r, h1, h2⟩
    · rw [h] at he
      exact absurd he (by simp)
    · have hre : r = Except.error e := CallResult.ok.inj (h1.symm.trans he)
      rcases workerBody_fst_spec ⟨st.raw⟩ n q with hw | hw | ⟨out, hw⟩
      · exact absurd (h2.symm.trans hw) (by simp)
      · have hr2 : r = Except.error FfiError.ExecuteQueryFailed :=
          CallResult.ok.inj (h2.symm.trans hw)
        exact Except.error.inj (hre.symm.trans hr2)
      · have hr3 : r = Except.ok out := CallResult.ok.inj (h2.symm.trans hw)
        exact absurd (hre.symm.trans hr3) (by simp)

/-- C10 witness: the final conjunct discharged at a concrete input — the
async call against a native model whose execute call returns null. -/
theorem drain_infallible_no_utf8_error_witness :
    ((Storage.mk 2).execute_query_rows_as_strings
        { create := some 2, exec := fun _ => none } "q" false).fst
      = CallResult.ok (Except.error FfiError.ExecuteQueryFailed)
    ∧ FfiError.ExecuteQueryFailed = FfiError.ExecuteQueryFailed :=
  ⟨rfl,
   drain_infallible_no_utf8_error.2.2.2 (Storage.mk 2)
     { create := some 2, exec := fun _ => none } "q" false
     FfiError.ExecuteQueryFailed rfl⟩

/-- C2 counterexample: against a live native model, an abnormally
terminated worker (join failure) makes `execute_query_rows_as_strings`
panic with the `expect` message "spawn_blocking"; the failure is not
returned as any error value — in particular not as a `WorkerFailed` error
kind, which does not exist in `FfiError`. -/
theorem worker_failure_counterexample :
    ((Storage.mk 5).execute_query_rows_as_strings
        { create := some 5, exec := fun _ => none } "q" true).fst
      = CallResult.panic "spawn_blocking" := rfl

/-- C2 amended: if the blocking worker terminates abnormally before
completing, the failure is not silently dropped, but it is surfaced as a
panic of the calling task (`expect("spawn_blocking")` on the join
result), not as a distinct `WorkerFailed` error kind — `FfiError` has no
such variant. -/
theorem worker_failure_panics (st : Storage) (n : NativeModel) (q : String) :
    (st.execute_query_rows_as_strings n q true).fst
      = CallResult.panic "spawn_blocking" :=
  async_fst_cancelled st n q

/-- C3: a query containing the native terminator byte (NUL) makes both
the sync `execute_query` and the async `execute_query_rows_as_strings`
fail before any native call is made (their native traces are empty), by
panicking — the sync form with the caller-error message "query contains
NUL", the async form through the worker's join — never as the native
`ExecuteQueryFailed`. -/
theorem nul_query_fails_before_native (st : Storage) (n : NativeModel) (q : String)
    (c : Bool) (hq : containsNul q = true) :
    st.execute_query n q = (CallResult.panic "query contains NUL", [])
    ∧ (st.execute_query_rows_as_strings n q c).fst = CallResult.panic "spawn_blocking"
    ∧ (st.execute_query_rows_as_strings n q c).snd = [] := by
  refine ⟨by simp [Storage.execute_query, hq], ?_, ?_⟩
  · cases c with
    | false => exact async_fst_of_panic st n q _ (workerBody_fst_nul ⟨st.raw⟩ n q hq)
    | true => exact async_fst_cancelled st n q
  · rw [async_snd, workerBody_snd_nul ⟨st.raw⟩ n q hq]
    rfl

/-- C3 witness: the theorem discharged at the NUL-containing query
"a\x00b". -/
theorem nul_query_fails_before_native_witness :
    containsNul "a\x00b" = true
    ∧ ((Storage.mk 1).execute_query { create := some 1, exec := fun _ => none } "a\x00b"
        = (CallResult.panic "query contains NUL", [])
      ∧ ((Storage.mk 1).execute_query_rows_as_strings
          { create := some 1, exec := fun _ => none } "a\x00b" false).fst
          = CallResult.panic "spawn_blocking"
      ∧ ((Storage.mk 1).execute_query_rows_as_strings
          { create := some 1, exec := fun _ => none } "a\x00b" false).snd = []) :=
  ⟨by decide,
   nul_query_fails_before_native (Storage.mk 1)
     { create := some 1, exec := fun _ => none } "a\x00b" false (by decide)⟩

/-- C5: for NUL-free query text the async bridge (with the worker running
to completion) is functionally identical to the sync composition
`execute_query` + `all_rows_as_strings`: the same outcome — the same row
list, and `ExecuteQueryFailed` exactly when the sync form fails — and the
same native calls in the same order; for a NUL query both forms panic
instead of returning. -/
theorem async_equals_sync (st : Storage) (n : NativeModel) (q : String) :
    (containsNul q = false →
      (st.execute_query_rows_as_strings n q false).fst
          = (st.execute_query_then_drain n q).fst
        ∧ (st.execute_query_rows_as_strings n q false).snd.map Prod.snd
          = (st.execute_query_then_drain n q).snd)
    ∧ (containsNul q = true →
      (st.execute_query_rows_as_strings n q false).fst = CallResult.panic "spawn_blocking"
        ∧ (st.execute_query_then_drain n q).fst = CallResult.panic "query contains NUL") := by
  constructor
  · intro hq
    cases he : n.exec q with
    | none =>
      refine ⟨?_, ?_⟩
      · rw [then_drain_execNone st n q hq he,
          async_fst_of_ok st n q _ (workerBody_fst_execNone ⟨st.raw⟩ n q hq he)]
      · rw [then_drain_execNone st n q hq he, async_snd,
          workerBody_snd_execNone ⟨st.raw⟩ n q hq he]
        rfl
    | some p =>
      obtain ⟨rid, m⟩ := p
      refine ⟨?_, ?_⟩
      · rw [then_drain_execSome st n q rid m hq he,
          async_fst_of_ok st n q _ (workerBody_fst_execSome ⟨st.raw⟩ n q rid m hq he)]
      · rw [then_drain_execSome st n q rid m hq he, async_snd,
          workerBody_snd_execSome ⟨st.raw⟩ n q rid m hq he]
        simp
  · intro hq
    exact ⟨async_fst_of_panic st n q _ (workerBody_fst_nul ⟨st.raw⟩ n q hq),
      by rw [then_drain_nul st n q hq]⟩

/-- C5 witness: the equivalence discharged at a NUL-free query against a
native model with one two-column result row. -/
theorem async_equals_sync_witness :
    containsNul "SELECT" = false
    ∧ (((Storage.mk 3).execute_query_rows_as_strings
          { create := some 3,
            exec := fun _ => some (9, ResultSetModel.mk 2 [[Cell.str "a", Cell.null]]) }
          "SELECT" false).fst
        = ((Storage.mk 3).execute_query_then_drain
          { create := some 3,
            exec := fun _ => some (9, ResultSetModel.mk 2 [[Cell.str "a", Cell.null]]) }
          "SELECT").fst
      ∧ ((Storage.mk 3).execute_query_rows_as_strings
          { create := some 3,
            exec := fun _ => some (9, ResultSetModel.mk 2 [[Cell.str "a", Cell.null]]) }
          "SELECT" false).snd.map Prod.snd
        = ((Storage.mk 3).execute_query_then_drain
          { create := some 3,
            exec := fun _ => some (9, ResultSetModel.mk 2 [[Cell.str "a", Cell.null]]) }
          "SELECT").snd) :=
  ⟨by decide,
   (async_equals_sync (Storage.mk 3)
     { create := some 3,
       exec := fun _ => some (9, ResultSetModel.mk 2 [[Cell.str "a", Cell.null]]) }
     "SELECT").1 (by decide)⟩

/-- C6: `Storage::new` fails with `CreateStorageFailed` iff the native
create call returns a null resource; the attempt performs exactly the one
create call — so no destroy is ever invoked for a failed attempt and no
partial state remains — and on success the handle wraps exactly the
non-null resource the native call returned. -/
theorem create_storage_spec (n : NativeModel) :
    ((Storage.new n).fst = Except.error FfiError.CreateStorageFailed ↔ n.create = none)
    ∧ (∀ h, n.create = some h → (Storage.new n).fst = Except.ok (Storage.mk h))
    ∧ (Storage.new n).snd = [NativeOp.createStorage] := by
  refine ⟨⟨fun hf => ?_, fun hn => by simp [Storage.new, hn]⟩,
    fun h hh => by simp [Storage.new, hh], ?_⟩
  · cases hc : n.create with
    | none => rfl
    | some h => simp [Storage.new, hc] at hf
  · cases hc : n.create <;> simp [Storage.new, hc]

/-- C6 witness: success case discharged at a native model returning
resource 5. -/
theorem create_storage_spec_witness :
    ({ create := some 5, exec := fun _ => none } : NativeModel).create = some 5
    ∧ (Storage.new { create := some 5, exec := fun _ => none }).fst
        = Except.ok (Storage.mk 5) :=
  ⟨rfl, (create_storage_spec { create := some 5, exec := fun _ => none }).2.1 5 rfl⟩

/-- C7: for NUL-free query text, the sync call and the async worker body
fail with `ExecuteQueryFailed` iff the native execute call returns a null
result; in every case neither path ever invokes destroy-storage, so the
Storage Handle is left valid and unchanged and the caller may retry. -/
theorem execute_query_failed_iff (st : Storage) (n : NativeModel) (q : String)
    (hq : containsNul q = false) :
    ((st.execute_query n q).fst
        = CallResult.ok (Except.error FfiError.ExecuteQueryFailed) ↔ n.exec q = none)
    ∧ ((workerBody ⟨st.raw⟩ n q).fst
        = CallResult.ok (Except.error FfiError.ExecuteQueryFailed) ↔ n.exec q = none)
    ∧ (∀ op ∈ (st.execute_query n q).snd, ∀ h2, op ≠ NativeOp.destroyStorage h2)
    ∧ (∀ op ∈ (workerBody ⟨st.raw⟩ n q).snd, ∀ h2, op ≠ NativeOp.destroyStorage h2) := by
  refine ⟨⟨fun hf => ?_, fun hn => by simp [Storage.execute_query, hq, hn]⟩,
    ⟨fun hf => ?_, fun hn => workerBody_fst_execNone ⟨st.raw⟩ n q hq hn⟩, ?_, ?_⟩
  · cases hx : n.exec q with
    | none => rfl
    | some p =>
      obtain ⟨rid, m⟩ := p
      simp [Storage.execute_query, hq, hx] at hf
  · cases hx : n.exec q with
    | none => rfl
    | some p =>
      obtain ⟨rid, m⟩ := p
      obtain ⟨out, ho⟩ := all_rows_fst_ok (ResultSet.mk rid m 0)
      rw [workerBody_fst_execSome ⟨st.raw⟩ n q rid m hq hx, ho] at hf
      exact absurd (CallResult.ok.inj hf) (by simp)
  · intro op hop h2
    cases hx : n.exec q with
    | none =>
      simp [Storage.execute_query, hq, hx] at hop
      subst hop
      simp
    | some p =>
      obtain ⟨rid, m⟩ := p
      simp [Storage.execute_query, hq, hx] at hop
      subst hop
      simp
  · exact fun op hop => workerBody_no_destroyStorage ⟨st.raw⟩ n q op hop

/-- C7 witness: the null-result case discharged at a concrete native
model whose execute call returns null. -/
theorem execute_query_failed_iff_witness :
    containsNul "q" = false
    ∧ ((Storage.mk 2).execute_query { create := some 2, exec := fun _ => none } "q").fst
        = CallResult.ok (Except.error FfiError.ExecuteQueryFailed) :=
  ⟨by decide,
   (execute_query_failed_iff (Storage.mk 2)
     { create := some 2, exec := fun _ => none } "q" (by decide)).1.mpr rfl⟩

/-- C8: over a full session (create, bridged query, handle drop), every
successfully created native resource is destroyed exactly once and no
earlier than its last use: when creation fails nothing is destroyed; on
success the storage destroy is the final native call of the session, the
worker never invokes destroy-storage on the Thread-Crossing Token's
resource, the result set the worker creates is destroyed exactly once
with no operation touching it afterwards, and when no result set is
created (NUL query or null native result) no result destroy occurs. -/
theorem resource_lifecycle (n : NativeModel) (q : String) (c : Bool) :
    (n.create = none → sessionOps n q c = [NativeOp.createStorage])
    ∧ ∀ h, n.create = some h →
        ((sessionOps n q c).countP
            (fun op => decide (op = NativeOp.destroyStorage h)) = 1
          ∧ (sessionOps n q c).getLast? = some (NativeOp.destroyStorage h))
        ∧ (∀ p op, (p, op) ∈ (session n q c).snd → p = Pool.blocking →
            ∀ h2, op ≠ NativeOp.destroyStorage h2)
        ∧ (∀ rid m, containsNul q = false → n.exec q = some (rid, m) →
            (sessionOps n q c).countP
                (fun op => decide (op = NativeOp.destroyResult rid)) = 1
              ∧ ∃ pre suf, sessionOps n q c = pre ++ NativeOp.destroyResult rid :: suf
                  ∧ suf.all (fun op => usesResult rid op = false) = true)
        ∧ ((containsNul q = true ∨ n.exec q = none) →
            ∀ r, (sessionOps n q c).countP
                (fun op => decide (op = NativeOp.destroyResult r)) = 0) := by
  refine ⟨fun hc => by simp [sessionOps, session_snd_none n q c hc], fun h hc => ?_⟩
  refine ⟨⟨?_, ?_⟩, ?_, ?_, ?_⟩
  · rw [sessionOps_some n q c h hc]
    simp [List.countP_cons, List.countP_append, workerBody_countP_destroyStorage]
  · rw [sessionOps_some n q c h hc, ← List.cons_append]
    exact List.getLast?_concat _
  · intro p op hmem hp h2
    rw [session_snd_some n q c h hc] at hmem
    simp only [List.mem_cons, List.mem_append, List.mem_map, Prod.mk.injEq,
      List.mem_singleton, List.not_mem_nil, or_false] at hmem
    rcases hmem with ⟨hps, _⟩ | ⟨op', hop', _, hope⟩ | ⟨hps, _⟩
    · rw [hp] at hps; exact absurd hps.symm (by simp)
    · rw [← hope]
      exact workerBody_no_destroyStorage ⟨h⟩ n q op' hop' h2
    · rw [hp] at hps; exact absurd hps.symm (by simp)
  · intro rid m hq he
    constructor
    · rw [sessionOps_some n q c h hc]
      simp [List.countP_cons, List.countP_append,
        workerBody_countP_destroyResult ⟨h⟩ n q rid m hq he]
    · refine ⟨NativeOp.createStorage :: NativeOp.executeQuery h q
          :: ((ResultSet.mk rid m 0).all_rows_as_strings).snd,
        [NativeOp.destroyStorage h], ?_, ?_⟩
      · rw [sessionOps_some n q c h hc, workerBody_snd_execSome ⟨h⟩ n q rid m hq he]
        simp
      · simp [usesResult]
  · intro hd r
    by_cases hq2 : containsNul q
    · rw [sessionOps_some n q c h hc, workerBody_snd_nul ⟨h⟩ n q hq2]
      simp
    · have hq' : containsNul q = false := by simpa using hq2
      rcases hd with hd | hd
      · exact absurd hd hq2
      · rw [sessionOps_some n q c h hc, workerBody_snd_execNone ⟨h⟩ n q hq' hd]
        simp

/-- C8 witness: the success branch discharged at the concrete native
model `nLive` (storage resource 5, result set 9 with one row). -/
theorem resource_lifecycle_witness :
    nLive.create = some 5
    ∧ (((sessionOps nLive "SELECT" false).countP
            (fun op => decide (op = NativeOp.destroyStorage 5)) = 1
        ∧ (sessionOps nLive "SELECT" false).getLast?
            = some (NativeOp.destroyStorage 5))
      ∧ (∀ p op, (p, op) ∈ (session nLive "SELECT" false).snd → p = Pool.blocking →
          ∀ h2, op ≠ NativeOp.destroyStorage h2)
      ∧ (∀ rid m, containsNul "SELECT" = false →
          nLive.exec "SELECT" = some (rid, m) →
          (sessionOps nLive "SELECT" false).countP
              (fun op => decide (op = NativeOp.destroyResult rid)) = 1
            ∧ ∃ pre suf, sessionOps nLive "SELECT" false
                  = pre ++ NativeOp.destroyResult rid :: suf
                ∧ suf.all (fun op => usesResult rid op = false) = true)
      ∧ ((containsNul "SELECT" = true ∨ nLive.exec "SELECT" = none) →
          ∀ r, (sessionOps nLive "SELECT" false).countP
              (fun op => decide (op = NativeOp.destroyResult r)) = 0)) :=
  ⟨rfl, (resource_lifecycle nLive "SELECT" false).2 5 rfl⟩

/-- C9: every native call made by `execute_query_rows_as_strings` is
executed on the blocking-capable worker pool — the bridge performs no
native call on the cooperative scheduler pool, so the scheduler thread
never hosts the blocking native work. -/
theorem bridge_native_calls_on_blocking_pool (st : Storage) (n : NativeModel)
    (q : String) (c : Bool) :
    ((st.execute_query_rows_as_strings n q c).snd).all
      (fun e => decide (e.fst = Pool.blocking)) = true := by
  rw [async_snd]
  simp

end KadeDB
